import Mathlib

/-!
Shallow embedding of the webgate initializer (src/src/main.rs): a process-1
style bootstrap orchestrator.  External effects (subprocess spawning, fork,
device presence, console input, file opens) are modelled as oracles supplied
through a `World`/`Env` record; unbounded retry loops are modelled with
explicit fuel, where a `none` result means the loop did not terminate within
the given fuel (i.e. the code blocks).
-/

-- === Configuration constants (src/src/main.rs lines 10-39) ===

def DEBUG_MODE : Bool := true

def TERMINAL_DEVICE_PATH : String := "/dev/tty0"

def LOG_FILE_PATH : String := "/mnt/log.txt"

def CONSOLE_DEVICE_PATH : String := "/dev/tty0"

def DEFAULT_BINARY_PATH : String := "/bin"

def MOUNT_POINT_PATH : String := "/mnt"

def LOG_STORAGE_DEVICE_PATH : String := "/dev/sda1"

def GRAPHICS_DEVICE_PATH : String := "/dev/dri/card0"

def BROWSER_EXECUTABLE_PATH : String := "/usr/bin/ui/content_shell"

def BROWSER_DEFAULT_URL : String := "http://www.example.com"

/-- Timing constants (lines 34-35); sleeps have no observable effect in this
    embedding beyond the retry structure itself. -/
def SYNC_INTERVAL_SECONDS : Nat := 2

/-- The fixed inter-attempt delay of every retry loop (line 35). -/
def RETRY_DELAY_SECONDS : Nat := 2

/-- Fixed environment injected into every spawned command
    (configure_command_environment, lines 170-178). -/
def fixed_environment : List (String × String) :=
  [("EGL_DEBUG", "1"),
   ("EGL_LOG_LEVEL", "debug"),
   ("DRI_DEVICE", GRAPHICS_DEVICE_PATH),
   ("LIBGL_ALWAYS_SOFTWARE", "0"),
   ("LD_LIBRARY_PATH", "/lib:/usr/lib:/lib64:/usr/lib/x86_64-linux-gnu"),
   ("PATH", "/bin:/usr/bin")]

-- === Command tokenizer (parse_shell_command, lines 182-210) ===

/-- Character-by-character scan of `parse_shell_command`: a double quote
    toggles `inside_quotes` and is dropped; a space outside quotes flushes a
    non-empty current argument; any other character is appended to it; at end
    of input a non-empty pending argument is flushed. -/
def parse_shell_command_aux : List Char → Bool → List Char → List String
  | [], _, current_argument =>
      if current_argument = [] then [] else [String.mk current_argument]
  | c :: rest, inside_quotes, current_argument =>
      if c = '"' then
        parse_shell_command_aux rest (!inside_quotes) current_argument
      else if c = ' ' && !inside_quotes then
        if current_argument = [] then
          parse_shell_command_aux rest inside_quotes current_argument
        else
          String.mk current_argument :: parse_shell_command_aux rest inside_quotes []
      else
        parse_shell_command_aux rest inside_quotes (current_argument ++ [c])

/-- parse_shell_command (lines 182-210). -/
def parse_shell_command (command : String) : List String :=
  parse_shell_command_aux command.data false []

-- === Command executor (execute_shell_command, lines 120-166) ===

/-- Result of spawning and waiting on an external program: either the spawn
    itself fails (e.g. executable missing), or the child exits with
    `ExitStatus` whose `code()` is an `Option Int` (`none` models
    signal-terminated children); `success()` means code `some 0`. -/
inductive CmdOutcome where
  | spawnError (message : String)
  | exited (code : Option Int)
deriving DecidableEq

/-- Oracle for the operating system: what happens when a given program is
    spawned with given arguments and environment. -/
structure World where
  run : String → List String → List (String × String) → CmdOutcome

/-- Rust debug formatting of `ExitStatus.code() : Option<i32>`. -/
def optionCodeRepr : Option Int → String
  | none => "None"
  | some k => "Some(" ++ toString k ++ ")"

/-- The status-handling match of execute_shell_command (lines 151-163):
    non-zero exit and spawn failure are reported as log lines only; every
    branch falls through to `Ok(())`. -/
def report_outcome : CmdOutcome → List String × Except String Unit
  | CmdOutcome.exited code =>
      if code = some 0 then ([], Except.ok ())
      else (["Command failed with exit code: " ++ optionCodeRepr code], Except.ok ())
  | CmdOutcome.spawnError message =>
      (["Failed to execute command: " ++ message], Except.ok ())

/-- Rust str::starts_with of line 130 with the char pattern a path-root
    marker: true when the first character of the string is a slash.  (Stated
    on the character list so that it evaluates inside the kernel.) -/
def starts_with_slash (program : String) : Bool :=
  match program.data with
  | [] => false
  | c :: _ => c = '/'

/-- The DEBUG_MODE trace line of lines 135-141. -/
def debug_trace_line (full_command_path : String) (arguments : List String) : String :=
  "$ " ++ full_command_path ++
    String.join (arguments.map (fun a => " \"" ++ a ++ "\""))

/-- Observable trace of one execute_shell_command call: the program/argument
    pair actually spawned (none when the command tokenizes to nothing), the
    log lines printed, and the returned io::Result. -/
structure ExecTrace where
  spawned : Option (String × List String)
  logs : List String
  result : Except String Unit

/-- execute_shell_command (lines 120-166): tokenize; empty is a no-op Ok;
    qualify a first token not starting with '/' by prefixing
    DEFAULT_BINARY_PATH; emit the debug trace; spawn with the fixed
    environment; report failures as log lines and return Ok in every case. -/
def execute_shell_command (w : World) (command : String) : ExecTrace :=
  match parse_shell_command command with
  | [] => ⟨none, [], Except.ok ()⟩
  | program :: arguments =>
      let full_command_path :=
        if starts_with_slash program then program
        else DEFAULT_BINARY_PATH ++ "/" ++ program
      let debug_logs :=
        if DEBUG_MODE then [debug_trace_line full_command_path arguments] else []
      let r := report_outcome (w.run full_command_path arguments fixed_environment)
      ⟨some (full_command_path, arguments), debug_logs ++ r.1, r.2⟩

example : parse_shell_command "a \"b c\" d" = ["a", "b c", "d"] := by decide

example : parse_shell_command "" = [] := by decide

example : parse_shell_command "\"unterminated" = ["unterminated"] := by decide

example : parse_shell_command "a   b" = ["a", "b"] := by decide

-- === System setup functions ===

/-- Sequential execution of a fixed command list with the `?` operator
    applied to each execute_shell_command result, as in the loops of
    mount_filesystems / setup_temporary_filesystems / mount_log_storage. -/
def runCommands (w : World) : List String → List String × Except String Unit
  | [] => ([], Except.ok ())
  | c :: rest =>
      let tr := execute_shell_command w c
      match tr.result with
      | Except.error e => (tr.logs, Except.error e)
      | Except.ok () =>
          let r := runCommands w rest
          (tr.logs ++ r.1, r.2)

/-- The fixed mount list of mount_filesystems (lines 269-275). -/
def mount_commands : List String :=
  ["mkdir -p /proc",
   "mkdir -p /dev",
   "mount -t proc none /proc",
   "mount -t devtmpfs devtmpfs /dev",
   "mount -t sysfs sysfs /sys"]

/-- mount_filesystems (lines 268-282). -/
def mount_filesystems (w : World) : List String × Except String Unit :=
  runCommands w mount_commands

/-- The fixed command list of setup_temporary_filesystems (lines 287-291). -/
def temporary_filesystem_commands : List String :=
  ["mkdir -p /dev/shm",
   "mount -t tmpfs -o nosuid,nodev,uid=1000,gid=1000,mode=0777 shmfs /dev/shm",
   "mount -t tmpfs -o uid=1000,gid=1000,mode=0777 tmpfs /tmp"]

/-- setup_temporary_filesystems (lines 286-298). -/
def setup_temporary_filesystems (w : World) : List String × Except String Unit :=
  runCommands w temporary_filesystem_commands

/-- The fixed symlink table of create_symbolic_links (lines 243-247). -/
def symbolic_links : List (String × String) :=
  [("/usr/bin", "/bin"), ("/usr/lib", "/lib"), ("/usr/lib64", "/lib64")]

/-- create_symbolic_links (lines 240-264): each link failure is logged
    individually; the function always returns Ok. The `symlink` oracle says
    whether creating a given target/link pair succeeds. -/
def create_symbolic_links (symlink : String → String → Bool) :
    List String × Except String Unit :=
  ("Creating symbolic links..." ::
    symbolic_links.map (fun tl =>
      if symlink tl.1 tl.2 then
        "Created " ++ tl.2 ++ " -> " ++ tl.1
      else
        "Failed to create " ++ tl.2 ++ " -> " ++ tl.1),
   Except.ok ())

/-- What libc::fork returned, seen from the calling process: 0 selects the
    child branch (which loops forever and never returns), -1 the failure
    branch, and a positive pid the parent branch. -/
inductive ForkResult where
  | child
  | failed
  | parent (pid : Nat)
deriving DecidableEq

/-- start_sync_process (lines 216-236). The child branch never returns
    (`none`); fork failure logs and returns the io::Error from fork; the
    parent branch logs and returns Ok. -/
def start_sync_process : ForkResult → List String × Option (Except String Unit)
  | ForkResult.child => ([], none)
  | ForkResult.failed =>
      (["Failed to fork sync process"],
       some (Except.error "Failed to fork sync process"))
  | ForkResult.parent _ =>
      (["Started background sync process"], some (Except.ok ()))

-- === Output redirection (fuel-modelled retry loops) ===

/-- redirect_output_to_terminal (lines 64-84): attempt `n` of opening the
    terminal device succeeds when the oracle `p n` is true; each failed
    attempt logs and retries after a fixed delay; on success the descriptors
    are duplicated and the function returns Ok.  `none` = fuel exhausted,
    i.e. the loop is still blocking. -/
def redirect_output_to_terminal (p : Nat → Bool) :
    Nat → Nat → List String × Option (Except String Unit)
  | _, 0 => ([], none)
  | n, fuel + 1 =>
      if p n then
        (["Redirecting output to the terminal..."], some (Except.ok ()))
      else
        let r := redirect_output_to_terminal p (n + 1) fuel
        ("Failed to redirect output to the terminal" :: r.1, r.2)

/-- redirect_output_to_log_file (lines 88-113), same retry structure as the
    terminal phase but targeting the log file. -/
def redirect_output_to_log_file (p : Nat → Bool) :
    Nat → Nat → List String × Option (Except String Unit)
  | _, 0 => ([], none)
  | n, fuel + 1 =>
      if p n then
        (["Redirecting output to a log file!"], some (Except.ok ()))
      else
        let r := redirect_output_to_log_file p (n + 1) fuel
        ("Failed to redirect to a log file!" :: r.1, r.2)

-- === Log storage mount (mount_log_storage, lines 303-327) ===

/-- The device-presence polling loop of mount_log_storage (lines 307-314):
    poll `n` finds the device when `p n` is true; each unready poll logs and
    sleeps.  Returns the poll log lines and whether the device was found
    within the fuel. -/
def wait_for_device (p : Nat → Bool) : Nat → Nat → List String × Bool
  | _, 0 => ([], false)
  | n, fuel + 1 =>
      if p n then
        (["Log storage device detected, proceeding with mount..."], true)
      else
        let r := wait_for_device p (n + 1) fuel
        ("Log storage device not ready, waiting..." :: r.1, r.2)

/-- The fixed storage command list of mount_log_storage (lines 316-319),
    built by format! from the path constants. -/
def storage_commands : List String :=
  ["mkdir -p " ++ MOUNT_POINT_PATH,
   "mount " ++ LOG_STORAGE_DEVICE_PATH ++ " " ++ MOUNT_POINT_PATH]

-- === Browser launch (start_browser, lines 342-360) ===

/-- BROWSER_ARGUMENTS (lines 332-338). -/
def BROWSER_ARGUMENTS : List String :=
  ["--no-sandbox",
   "--in-process-gpu",
   "--single-process",
   "--ozone-platform=drm",
   "--content-shell-hide-toolbar"]

/-- The browser command string built in start_browser (lines 346-356):
    executable path, then each argument, then the URL, space-separated. -/
def browser_command : String :=
  (BROWSER_ARGUMENTS.foldl (fun acc argument => acc ++ " " ++ argument)
    BROWSER_EXECUTABLE_PATH) ++ " " ++ BROWSER_DEFAULT_URL

/-- start_browser (lines 342-360): log, then execute the browser command and
    return the executor's result directly. -/
def start_browser (w : World) : List String × Except String Unit :=
  let tr := execute_shell_command w browser_command
  ("Starting web browser..." :: tr.logs, tr.result)

-- === Interactive shell (interactive_shell, lines 366-403) ===

/-- One console iteration's externally-determined outcome: opening the
    console device fails, reading fails, read returns 0 bytes (end of file),
    or a line of text is read. -/
inductive ConsoleEvent where
  | openFail
  | readErr
  | eof
  | line (s : String)

/-- Rust str::trim of line 386: drop leading and trailing whitespace.
    (Stated on the character list so that it evaluates inside the kernel.) -/
def trim_whitespace (s : String) : String :=
  String.mk
    (((s.data.dropWhile Char.isWhitespace).reverse.dropWhile
        Char.isWhitespace).reverse)

/-- The loop of interactive_shell (lines 369-400), driven by the list of
    console events.  Returns the trimmed commands handed to
    execute_shell_command, the log lines, and the result: `some (Except.ok ())`
    when the loop breaks, `none` when the event list is exhausted without the
    loop terminating. -/
def interactive_shell_loop (w : World) :
    List ConsoleEvent → List String × List String × Option (Except String Unit)
  | [] => ([], [], none)
  | ConsoleEvent.openFail :: _ =>
      ([], ["Failed to open console for input"], some (Except.ok ()))
  | ConsoleEvent.readErr :: _ =>
      ([], ["Failed to read command from console"], some (Except.ok ()))
  | ConsoleEvent.eof :: _ => ([], [], some (Except.ok ()))
  | ConsoleEvent.line s :: rest =>
      let trimmed_command := trim_whitespace s
      if trimmed_command.isEmpty then
        interactive_shell_loop w rest
      else if trimmed_command = "exit" || trimmed_command = "quit" then
        ([], ["Exiting interactive shell..."], some (Except.ok ()))
      else
        let tr := execute_shell_command w trimmed_command
        let r := interactive_shell_loop w rest
        (trimmed_command :: r.1, tr.logs ++ r.2.1, r.2.2)

/-- interactive_shell (lines 366-403): banner line, then the loop; a
    terminating loop always returns Ok. -/
def interactive_shell (w : World) (events : List ConsoleEvent) :
    List String × List String × Option (Except String Unit) :=
  let r := interactive_shell_loop w events
  (r.1, "Starting interactive shell. Type commands or Ctrl+C to exit." :: r.2.1,
   r.2.2)

-- === Boot sequencer (run_initialization, lines 409-446; main, lines 450-468) ===

/-- The whole external environment of one boot: the spawn oracle, the symlink
    oracle, the fork outcome, the per-attempt open/poll oracles of the three
    retry loops, and the console event stream. -/
structure Env where
  world : World
  symlink : String → String → Bool
  fork : ForkResult
  terminalOpen : Nat → Bool
  logFileOpen : Nat → Bool
  deviceExists : Nat → Bool
  console : List ConsoleEvent

/-- A boot step outcome paired with its log lines: `none` means the step
    never returns (a blocking retry loop or the forked child branch). -/
def BootStep : Type := List String × Option (Except String Unit)

/-- Lift a step that always returns (an io::Result) into a BootStep. -/
def totalStep (a : List String × Except String Unit) : BootStep :=
  (a.1, some a.2)

/-- Prefix announcement log lines to a step, as the output_line calls before
    each numbered step of run_initialization do. -/
def prependLogs (ls : List String) (a : BootStep) : BootStep :=
  (ls ++ a.1, a.2)

/-- Sequencing with the `?` operator: a step that blocks forever blocks the
    whole sequence; an Err short-circuits; an Ok continues with the rest. -/
def seqStep (a : BootStep) (k : Unit → BootStep) : BootStep :=
  match a with
  | (l, none) => (l, none)
  | (l, some (Except.error e)) => (l, some (Except.error e))
  | (l, some (Except.ok ())) =>
      let r := k ()
      (l ++ r.1, r.2)

/-- mount_log_storage (lines 303-327): poll for the device (blocking), then
    run the storage commands with fail-fast `?`, then log success. -/
def mount_log_storage (env : Env) (fuel : Nat) : BootStep :=
  let wait := wait_for_device env.deviceExists 0 fuel
  if wait.2 then
    let r := runCommands env.world storage_commands
    match r.2 with
    | Except.ok () =>
        ("Waiting for log storage device to become available..." ::
          wait.1 ++ r.1 ++ ["Log storage device mounted successfully"],
         some (Except.ok ()))
    | Except.error e =>
        ("Waiting for log storage device to become available..." :: wait.1 ++ r.1,
         some (Except.error e))
  else
    ("Waiting for log storage device to become available..." :: wait.1, none)

/-- run_initialization (lines 409-446): the strictly ordered nine-step boot
    pipeline, each step announced before it runs, steps 6 and 7 guarded by
    DEBUG_MODE, every step result passed through the `?` operator. -/
def run_initialization (env : Env) (fuel : Nat) : BootStep :=
  prependLogs ["Starting webgate initializer...",
               "Initializing system components...",
               "[1/9]: Setting up symbolic links"]
  (seqStep (totalStep (create_symbolic_links env.symlink)) (fun _ =>
    prependLogs ["[2/9]: Mounting basic filesystems"]
    (seqStep (totalStep (mount_filesystems env.world)) (fun _ =>
      prependLogs ["[3/9]: Starting background sync process"]
      (seqStep (start_sync_process env.fork) (fun _ =>
        prependLogs ["[4/9]: Configuring output redirection"]
        (seqStep (redirect_output_to_terminal env.terminalOpen 0 fuel) (fun _ =>
          prependLogs ["[5/9]: Setting up temporary filesystems"]
          (seqStep (totalStep (setup_temporary_filesystems env.world)) (fun _ =>
            prependLogs ["[6/9]: Mounting log storage device"]
            (seqStep (if DEBUG_MODE then mount_log_storage env fuel
                      else ([], some (Except.ok ()))) (fun _ =>
              prependLogs ["[7/9]: Setting up logging"]
              (seqStep (if DEBUG_MODE then
                          redirect_output_to_log_file env.logFileOpen 0 fuel
                        else ([], some (Except.ok ()))) (fun _ =>
                prependLogs ["[8/9]: Launching web browser"]
                (seqStep (totalStep (start_browser env.world)) (fun _ =>
                  prependLogs ["[9/9]: Starting interactive shell"]
                  (seqStep
                    (let r := interactive_shell env.world env.console
                     (r.2.1, r.2.2)) (fun _ =>
                    (["Initialization sequence completed successfully"],
                     some (Except.ok ()))))))))))))))))))))

/-- main (lines 450-468): banner, run the initialization, then exit 0 on Ok
    and exit 1 on Err (with the two failure log lines).  The exit code is
    `none` when the sequence never terminates. -/
def main_result (env : Env) (fuel : Nat) : List String × Option Nat :=
  let banner := ["Webgate System Initializer v1.0",
                 "=========================================="]
  let r := run_initialization env fuel
  match r.2 with
  | none => (banner ++ r.1, none)
  | some (Except.ok ()) =>
      (banner ++ r.1 ++ ["System initialization completed successfully"], some 0)
  | some (Except.error e) =>
      (banner ++ r.1 ++
        ["System initialization failed: " ++ e,
         "Check system configuration and try again"], some 1)

-- === Concrete example environments (used by example-level theorems) ===

/-- A world in which every spawned command exits 0. -/
def world0 : World := ⟨fun _ _ _ => CmdOutcome.exited (some 0)⟩

/-- A world in which the command "mount -t proc none /proc" (step 2 of the
    boot sequence) exits with code 1 and every other command exits 0. -/
def world_mount_fails : World :=
  ⟨fun program arguments _ =>
    if program = "/bin/mount" && arguments = ["-t", "proc", "none", "/proc"] then
      CmdOutcome.exited (some 1)
    else CmdOutcome.exited (some 0)⟩

/-- An environment in which everything succeeds: every command exits 0, every
    symlink is created, fork returns a child pid, every open/poll succeeds,
    and the console immediately reports end of input. -/
def env_ok : Env :=
  ⟨world0, fun _ _ => true, ForkResult.parent 2,
   fun _ => true, fun _ => true, fun _ => true, [ConsoleEvent.eof]⟩

/-- env_ok, except that the mount command of step 2 fails. -/
def env_mount_fails : Env :=
  ⟨world_mount_fails, fun _ _ => true, ForkResult.parent 2,
   fun _ => true, fun _ => true, fun _ => true, [ConsoleEvent.eof]⟩

/-- env_ok, except that fork fails. -/
def env_fork_fails : Env :=
  ⟨world0, fun _ _ => true, ForkResult.failed,
   fun _ => true, fun _ => true, fun _ => true, [ConsoleEvent.eof]⟩

/-- env_ok, except that the log storage device path never appears. -/
def env_device_never : Env :=
  ⟨world0, fun _ _ => true, ForkResult.parent 2,
   fun _ => true, fun _ => true, fun _ => false, [ConsoleEvent.eof]⟩

/-- A world in which every spawn fails (executable missing). -/
def world_spawn_fails : World :=
  ⟨fun _ _ _ => CmdOutcome.spawnError "No such file or directory"⟩

/-- Joining tokens with single spaces (the round-trip construction of the
    tokenizer claim; this definition follows the claim words, not the
    source). -/
def joinSpace : List String → String
  | [] => ""
  | [t] => t
  | t :: ts => t ++ " " ++ joinSpace ts

-- === Helper lemmas: the executor never fails ===

theorem report_outcome_snd (o : CmdOutcome) : (report_outcome o).2 = Except.ok () := by
  cases o with
  | spawnError message => rfl
  | exited code =>
      by_cases h : code = some 0 <;> simp [report_outcome, h]

theorem execute_result_ok (w : World) (command : String) :
    (execute_shell_command w command).result = Except.ok () := by
  unfold execute_shell_command
  cases parse_shell_command command with
  | nil => rfl
  | cons program arguments => exact report_outcome_snd _

theorem runCommands_snd (w : World) (cs : List String) :
    (runCommands w cs).2 = Except.ok () := by
  induction cs with
  | nil => rfl
  | cons c rest ih =>
      simp only [runCommands, execute_result_ok]
      exact ih

theorem mount_filesystems_snd (w : World) :
    (mount_filesystems w).2 = Except.ok () :=
  runCommands_snd w mount_commands

theorem setup_temporary_filesystems_snd (w : World) :
    (setup_temporary_filesystems w).2 = Except.ok () :=
  runCommands_snd w temporary_filesystem_commands

theorem create_symbolic_links_snd (symlink : String → String → Bool) :
    (create_symbolic_links symlink).2 = Except.ok () := rfl

theorem start_browser_snd (w : World) :
    (start_browser w).2 = Except.ok () :=
  execute_result_ok w browser_command

-- === Helper lemmas: sequencing ===

theorem prependLogs_eq (ls : List String) (a : BootStep) :
    prependLogs ls a = (ls ++ a.1, a.2) := rfl

theorem seqStep_eq_ok (a : BootStep) (k : Unit → BootStep)
    (h : a.2 = some (Except.ok ())) :
    seqStep a k = (a.1 ++ (k ()).1, (k ()).2) := by
  obtain ⟨l, r⟩ := a
  cases h
  rfl

theorem seqStep_eq_error (a : BootStep) (k : Unit → BootStep) (e : String)
    (h : a.2 = some (Except.error e)) :
    seqStep a k = (a.1, some (Except.error e)) := by
  obtain ⟨l, r⟩ := a
  cases h
  rfl

theorem seqStep_eq_none (a : BootStep) (k : Unit → BootStep)
    (h : a.2 = none) :
    seqStep a k = (a.1, none) := by
  obtain ⟨l, r⟩ := a
  cases h
  rfl

theorem totalStep_snd_ok (a : List String × Except String Unit)
    (h : a.2 = Except.ok ()) : (totalStep a).2 = some (Except.ok ()) := by
  simp only [totalStep, h]

-- === Helper lemmas: the retry loops ===

theorem redirect_terminal_result (p : Nat → Bool) (n fuel : Nat) :
    (redirect_output_to_terminal p n fuel).2 = none ∨
    (redirect_output_to_terminal p n fuel).2 = some (Except.ok ()) := by
  induction fuel generalizing n with
  | zero => exact Or.inl rfl
  | succ fuel ih =>
      simp only [redirect_output_to_terminal]
      by_cases h : p n
      · simp [h]
      · simpa [h] using ih (n + 1)

theorem redirect_log_file_result (p : Nat → Bool) (n fuel : Nat) :
    (redirect_output_to_log_file p n fuel).2 = none ∨
    (redirect_output_to_log_file p n fuel).2 = some (Except.ok ()) := by
  induction fuel generalizing n with
  | zero => exact Or.inl rfl
  | succ fuel ih =>
      simp only [redirect_output_to_log_file]
      by_cases h : p n
      · simp [h]
      · simpa [h] using ih (n + 1)

theorem wait_for_device_never (p : Nat → Bool) (h : ∀ n, p n = false)
    (n fuel : Nat) :
    wait_for_device p n fuel =
      (List.replicate fuel "Log storage device not ready, waiting...", false) := by
  induction fuel generalizing n with
  | zero => rfl
  | succ fuel ih =>
      simp only [wait_for_device, h n, List.replicate]
      simp [ih (n + 1)]

theorem mount_log_storage_result (env : Env) (fuel : Nat) :
    (mount_log_storage env fuel).2 = none ∨
    (mount_log_storage env fuel).2 = some (Except.ok ()) := by
  unfold mount_log_storage
  by_cases h : (wait_for_device env.deviceExists 0 fuel).2
  · simp [h, runCommands_snd]
  · simp [h]

theorem mount_log_storage_never (env : Env) (fuel : Nat)
    (h : ∀ n, env.deviceExists n = false) :
    mount_log_storage env fuel =
      ("Waiting for log storage device to become available..." ::
         List.replicate fuel "Log storage device not ready, waiting...", none) := by
  unfold mount_log_storage
  simp [wait_for_device_never env.deviceExists h 0 fuel]

theorem interactive_shell_loop_result (w : World) (events : List ConsoleEvent) :
    (interactive_shell_loop w events).2.2 = none ∨
    (interactive_shell_loop w events).2.2 = some (Except.ok ()) := by
  induction events with
  | nil => exact Or.inl rfl
  | cons e rest ih =>
      cases e with
      | openFail => exact Or.inr rfl
      | readErr => exact Or.inr rfl
      | eof => exact Or.inr rfl
      | line s =>
          simp only [interactive_shell_loop]
          by_cases h1 : (trim_whitespace s).isEmpty
          · simpa [h1] using ih
          · by_cases h2 : trim_whitespace s = "exit" || trim_whitespace s = "quit"
            · simp [h1, h2]
            · simpa [h1, h2] using ih

theorem prependLogs_snd (ls : List String) (a : BootStep) :
    (prependLogs ls a).2 = a.2 := rfl

theorem seqStep_snd_ok (a : BootStep) (k : Unit → BootStep)
    (h : a.2 = some (Except.ok ())) : (seqStep a k).2 = (k ()).2 := by
  rw [seqStep_eq_ok _ _ h]

theorem seqStep_snd_error (a : BootStep) (k : Unit → BootStep) (e : String)
    (h : a.2 = some (Except.error e)) : (seqStep a k).2 = some (Except.error e) := by
  rw [seqStep_eq_error _ _ _ h]

theorem seqStep_snd_none (a : BootStep) (k : Unit → BootStep)
    (h : a.2 = none) : (seqStep a k).2 = none := by
  rw [seqStep_eq_none _ _ h]

theorem run_failed (env : Env) (fuel : Nat) (hf : env.fork = ForkResult.failed) :
    (run_initialization env fuel).2 = some (Except.error "Failed to fork sync process") := by
  unfold run_initialization
  rw [prependLogs_snd,
      seqStep_snd_ok _ _ (totalStep_snd_ok _ (create_symbolic_links_snd _)),
      prependLogs_snd,
      seqStep_snd_ok _ _ (totalStep_snd_ok _ (mount_filesystems_snd _)),
      prependLogs_snd, hf,
      seqStep_snd_error _ _ _ (by rfl)]

theorem run_parent (env : Env) (fuel : Nat) (p : Nat)
    (hf : env.fork = ForkResult.parent p) :
    (run_initialization env fuel).2 = none ∨
    (run_initialization env fuel).2 = some (Except.ok ()) := by
  unfold run_initialization
  rw [prependLogs_snd,
      seqStep_snd_ok _ _ (totalStep_snd_ok _ (create_symbolic_links_snd _)),
      prependLogs_snd,
      seqStep_snd_ok _ _ (totalStep_snd_ok _ (mount_filesystems_snd _)),
      prependLogs_snd, hf,
      seqStep_snd_ok _ _ (by rfl),
      prependLogs_snd]
  rcases redirect_terminal_result env.terminalOpen 0 fuel with h4 | h4
  · rw [seqStep_snd_none _ _ h4]
    exact Or.inl rfl
  · rw [seqStep_snd_ok _ _ h4, prependLogs_snd,
        seqStep_snd_ok _ _ (totalStep_snd_ok _ (setup_temporary_filesystems_snd _)),
        prependLogs_snd]
    rw [if_pos (by decide : DEBUG_MODE = true)]
    rcases mount_log_storage_result env fuel with h6 | h6
    · rw [seqStep_snd_none _ _ h6]
      exact Or.inl rfl
    · rw [seqStep_snd_ok _ _ h6, prependLogs_snd,
          if_pos (by decide : DEBUG_MODE = true)]
      rcases redirect_log_file_result env.logFileOpen 0 fuel with h7 | h7
      · rw [seqStep_snd_none _ _ h7]
        exact Or.inl rfl
      · rw [seqStep_snd_ok _ _ h7, prependLogs_snd,
            seqStep_snd_ok _ _ (totalStep_snd_ok _ (start_browser_snd _)),
            prependLogs_snd]
        rcases interactive_shell_loop_result env.world env.console with h9 | h9
        · exact Or.inl (seqStep_snd_none _ _ h9)
        · exact Or.inr (seqStep_snd_ok _ _ h9)

theorem run_child (env : Env) (fuel : Nat) (hf : env.fork = ForkResult.child) :
    (run_initialization env fuel).2 = none := by
  unfold run_initialization
  rw [prependLogs_snd,
      seqStep_snd_ok _ _ (totalStep_snd_ok _ (create_symbolic_links_snd _)),
      prependLogs_snd,
      seqStep_snd_ok _ _ (totalStep_snd_ok _ (mount_filesystems_snd _)),
      prependLogs_snd, hf,
      seqStep_snd_none _ _ (by rfl)]

theorem string_append_head (a b : String) (c : Char) (h : a.data.head? = some c) :
    (a ++ b).data.head? = some c := by
  rw [String.data_append]
  cases hd : a.data with
  | nil => rw [hd] at h; cases h
  | cons x xs =>
      rw [hd] at h
      simpa using h

theorem execute_log_head (w : World) (command : String) :
    ∀ s ∈ (execute_shell_command w command).logs,
      s.data.head? = some '$' ∨ s.data.head? = some 'C' ∨ s.data.head? = some 'F' := by
  intro s hs
  unfold execute_shell_command at hs
  cases hp : parse_shell_command command with
  | nil => rw [hp] at hs; cases hs
  | cons program arguments =>
      rw [hp] at hs
      dsimp only at hs
      rw [List.mem_append] at hs
      rcases hs with hs | hs
      · rw [if_pos (by decide : DEBUG_MODE = true)] at hs
        rcases List.mem_singleton.mp hs with rfl
        exact Or.inl (string_append_head _ _ _ (string_append_head _ _ _ rfl))
      · cases ho : w.run (if starts_with_slash program then program
            else DEFAULT_BINARY_PATH ++ "/" ++ program) arguments fixed_environment with
        | spawnError message =>
            rw [ho] at hs
            rcases List.mem_singleton.mp hs with rfl
            exact Or.inr (Or.inr (string_append_head _ _ _ rfl))
        | exited code =>
            rw [ho] at hs
            by_cases hc : code = some 0
            · simp [report_outcome, hc] at hs
            · simp only [report_outcome, if_neg hc] at hs
              rcases List.mem_singleton.mp hs with rfl
              exact Or.inr (Or.inl (string_append_head _ _ _ rfl))

theorem runCommands_log_head (w : World) (cs : List String) :
    ∀ s ∈ (runCommands w cs).1,
      s.data.head? = some '$' ∨ s.data.head? = some 'C' ∨ s.data.head? = some 'F' := by
  induction cs with
  | nil => intro s hs; cases hs
  | cons c rest ih =>
      intro s hs
      simp only [runCommands, execute_result_ok] at hs
      rw [List.mem_append] at hs
      rcases hs with hs | hs
      · exact execute_log_head w c s hs
      · exact ih s hs

theorem create_symbolic_links_log_head (symlink : String → String → Bool) :
    ∀ s ∈ (create_symbolic_links symlink).1,
      s.data.head? = some 'C' ∨ s.data.head? = some 'F' := by
  intro s hs
  simp only [create_symbolic_links, symbolic_links, List.map, List.mem_cons,
    List.not_mem_nil, or_false] at hs
  rcases hs with rfl | hs
  · exact Or.inl rfl
  · rcases hs with h | h | h <;>
      · split at h <;> rcases h with rfl
        · exact Or.inl rfl
        · exact Or.inr rfl

theorem redirect_terminal_log_head (p : Nat → Bool) (n fuel : Nat) :
    ∀ s ∈ (redirect_output_to_terminal p n fuel).1,
      s.data.head? = some 'R' ∨ s.data.head? = some 'F' := by
  induction fuel generalizing n with
  | zero => intro s hs; cases hs
  | succ fuel ih =>
      intro s hs
      simp only [redirect_output_to_terminal] at hs
      by_cases h : p n
      · rw [if_pos h] at hs
        rcases List.mem_singleton.mp hs with rfl
        exact Or.inl rfl
      · rw [if_neg h] at hs
        rcases List.mem_cons.mp hs with rfl | hs
        · exact Or.inr rfl
        · exact ih (n + 1) s hs

theorem prependLogs_fst (ls : List String) (a : BootStep) :
    (prependLogs ls a).1 = ls ++ a.1 := rfl

theorem totalStep_fst (a : List String × Except String Unit) :
    (totalStep a).1 = a.1 := rfl

theorem seqStep_fst_ok (a : BootStep) (k : Unit → BootStep)
    (h : a.2 = some (Except.ok ())) : (seqStep a k).1 = a.1 ++ (k ()).1 := by
  rw [seqStep_eq_ok _ _ h]

theorem seqStep_fst_none (a : BootStep) (k : Unit → BootStep)
    (h : a.2 = none) : (seqStep a k).1 = a.1 := by
  rw [seqStep_eq_none _ _ h]

theorem head_not_bracket {s : String} {c : Char} (h : s.data.head? = some c)
    (hne : ¬ c = '[') (hhead : s.data.head? = some '[') : False := by
  rw [h] at hhead
  exact hne (Option.some.inj hhead)

theorem setup_temp_log_head (w : World) :
    ∀ s ∈ (setup_temporary_filesystems w).1,
      s.data.head? = some '$' ∨ s.data.head? = some 'C' ∨ s.data.head? = some 'F' :=
  runCommands_log_head w temporary_filesystem_commands

theorem run_device_never_step_lines (env : Env) (fuel : Nat) (p : Nat)
    (hf : env.fork = ForkResult.parent p)
    (hd : ∀ n, env.deviceExists n = false) :
    ∀ s ∈ (run_initialization env fuel).1, s.data.head? = some '[' →
      s ∈ ["[1/9]: Setting up symbolic links",
           "[2/9]: Mounting basic filesystems",
           "[3/9]: Starting background sync process",
           "[4/9]: Configuring output redirection",
           "[5/9]: Setting up temporary filesystems",
           "[6/9]: Mounting log storage device"] := by
  intro s hs hhead
  unfold run_initialization at hs
  rw [prependLogs_fst,
      seqStep_fst_ok _ _ (totalStep_snd_ok _ (create_symbolic_links_snd _)),
      totalStep_fst, prependLogs_fst,
      seqStep_fst_ok _ _ (totalStep_snd_ok _ (mount_filesystems_snd _)),
      totalStep_fst, prependLogs_fst, hf,
      seqStep_fst_ok _ _ (by rfl), prependLogs_fst] at hs
  rcases redirect_terminal_result env.terminalOpen 0 fuel with h4 | h4
  · rw [seqStep_fst_none _ _ h4] at hs
    simp only [start_sync_process, List.mem_append, List.mem_cons,
      List.not_mem_nil, or_false, false_or] at hs
    rcases hs with (rfl | rfl | rfl) | hs | rfl | hs | rfl | rfl | rfl | hs
    · exact absurd hhead (by decide)
    · exact absurd hhead (by decide)
    · decide
    · rcases create_symbolic_links_log_head env.symlink s hs with h | h <;>
        exact (head_not_bracket h (by decide) hhead).elim
    · decide
    · rcases runCommands_log_head env.world mount_commands s hs with h | h | h <;>
        exact (head_not_bracket h (by decide) hhead).elim
    · decide
    · exact absurd hhead (by decide)
    · decide
    · rcases redirect_terminal_log_head env.terminalOpen 0 fuel s hs with h | h <;>
        exact (head_not_bracket h (by decide) hhead).elim
  · rw [seqStep_fst_ok _ _ h4, prependLogs_fst,
        seqStep_fst_ok _ _ (totalStep_snd_ok _ (setup_temporary_filesystems_snd _)),
        totalStep_fst, prependLogs_fst,
        if_pos (by decide : DEBUG_MODE = true),
        seqStep_fst_none _ _ (by rw [mount_log_storage_never env fuel hd]),
        mount_log_storage_never env fuel hd] at hs
    simp only [start_sync_process, List.mem_append, List.mem_cons,
      List.not_mem_nil, or_false, false_or] at hs
    rcases hs with (rfl | rfl | rfl) | hs | rfl | hs | rfl | rfl | rfl | hs | rfl | hs | rfl | rfl | hs
    · exact absurd hhead (by decide)
    · exact absurd hhead (by decide)
    · decide
    · rcases create_symbolic_links_log_head env.symlink s hs with h | h <;>
        exact (head_not_bracket h (by decide) hhead).elim
    · decide
    · rcases runCommands_log_head env.world mount_commands s hs with h | h | h <;>
        exact (head_not_bracket h (by decide) hhead).elim
    · decide
    · exact absurd hhead (by decide)
    · decide
    · rcases redirect_terminal_log_head env.terminalOpen 0 fuel s hs with h | h <;>
        exact (head_not_bracket h (by decide) hhead).elim
    · decide
    · rcases setup_temp_log_head env.world s hs with h | h | h <;>
        exact (head_not_bracket h (by decide) hhead).elim
    · decide
    · exact absurd hhead (by decide)
    · rcases List.eq_of_mem_replicate hs with rfl
      exact absurd hhead (by decide)

theorem run_device_never_snd (env : Env) (fuel : Nat) (p : Nat)
    (hf : env.fork = ForkResult.parent p)
    (hd : ∀ n, env.deviceExists n = false) :
    (run_initialization env fuel).2 = none := by
  unfold run_initialization
  rw [prependLogs_snd,
      seqStep_snd_ok _ _ (totalStep_snd_ok _ (create_symbolic_links_snd _)),
      prependLogs_snd,
      seqStep_snd_ok _ _ (totalStep_snd_ok _ (mount_filesystems_snd _)),
      prependLogs_snd, hf,
      seqStep_snd_ok _ _ (by rfl),
      prependLogs_snd]
  rcases redirect_terminal_result env.terminalOpen 0 fuel with h4 | h4
  · rw [seqStep_snd_none _ _ h4]
  · rw [seqStep_snd_ok _ _ h4, prependLogs_snd,
        seqStep_snd_ok _ _ (totalStep_snd_ok _ (setup_temporary_filesystems_snd _)),
        prependLogs_snd,
        if_pos (by decide : DEBUG_MODE = true),
        seqStep_snd_none _ _ (by rw [mount_log_storage_never env fuel hd])]

theorem run_error_fork (env : Env) (fuel : Nat) (e : String)
    (h : (run_initialization env fuel).2 = some (Except.error e)) :
    env.fork = ForkResult.failed := by
  cases hf : env.fork with
  | child =>
      rw [run_child env fuel hf] at h
      cases h
  | failed => rfl
  | parent p =>
      rcases run_parent env fuel p hf with h' | h' <;> rw [h'] at h <;> cases h

theorem main_one_fork (env : Env) (fuel : Nat)
    (h : (main_result env fuel).2 = some 1) :
    env.fork = ForkResult.failed := by
  unfold main_result at h
  dsimp only at h
  cases hr : (run_initialization env fuel).2 with
  | none => rw [hr] at h; simp at h
  | some r =>
      cases r with
      | ok u =>
          cases u
          rw [hr] at h
          simp at h
      | error e => exact run_error_fork env fuel e hr

theorem string_mk_ne_empty (cur : List Char) (h : cur ≠ []) : String.mk cur ≠ "" := by
  intro he
  exact h (congrArg String.data he)

theorem parse_aux_tokens (l : List Char) :
    ∀ (q : Bool) (cur : List Char), '"' ∉ cur →
      ∀ t ∈ parse_shell_command_aux l q cur, t ≠ "" ∧ '"' ∉ t.data := by
  induction l with
  | nil =>
      intro q cur hcur t ht
      dsimp only [parse_shell_command_aux] at ht
      by_cases h : cur = []
      · rw [if_pos h] at ht
        cases ht
      · rw [if_neg h] at ht
        rcases List.mem_singleton.mp ht with rfl
        exact ⟨string_mk_ne_empty cur h, hcur⟩
  | cons c rest ih =>
      intro q cur hcur t ht
      dsimp only [parse_shell_command_aux] at ht
      by_cases h1 : c = '"'
      · rw [if_pos h1] at ht
        exact ih (!q) cur hcur t ht
      · rw [if_neg h1] at ht
        by_cases h2 : (c = ' ' && !q : Bool)
        · rw [if_pos h2] at ht
          by_cases h3 : cur = []
          · rw [if_pos h3] at ht
            exact ih q cur hcur t ht
          · rw [if_neg h3] at ht
            rcases List.mem_cons.mp ht with rfl | ht
            · exact ⟨string_mk_ne_empty cur h3, hcur⟩
            · exact ih q [] (by simp) t ht
        · rw [if_neg h2] at ht
          refine ih q (cur ++ [c]) ?_ t ht
          intro hmem
          rcases List.mem_append.mp hmem with hmem | hmem
          · exact hcur hmem
          · rcases List.mem_singleton.mp hmem with rfl
            exact h1 rfl

theorem parse_aux_shift (cs : List Char) (h : ∀ c ∈ cs, c ≠ ' ' ∧ c ≠ '"') :
    ∀ (rest : List Char) (q : Bool) (cur : List Char),
      parse_shell_command_aux (cs ++ rest) q cur =
      parse_shell_command_aux rest q (cur ++ cs) := by
  induction cs with
  | nil => intro rest q cur; simp
  | cons c cs ih =>
      intro rest q cur
      have hc := h c (List.mem_cons_self c cs)
      have hrest : ∀ x ∈ cs, x ≠ ' ' ∧ x ≠ '"' :=
        fun x hx => h x (List.mem_cons_of_mem c hx)
      rw [List.cons_append]
      dsimp only [parse_shell_command_aux]
      rw [if_neg hc.2, if_neg (by simp [hc.1]), ih hrest rest q (cur ++ [c])]
      rw [List.append_assoc]
      rfl

theorem parse_roundtrip (ts : List String)
    (h : ∀ t ∈ ts, t ≠ "" ∧ ∀ c ∈ t.data, c ≠ ' ' ∧ c ≠ '"') :
    parse_shell_command (joinSpace ts) = ts := by
  induction ts with
  | nil => rfl
  | cons t ts ih =>
      have ht := h t (List.mem_cons_self t ts)
      have hts : ∀ x ∈ ts, x ≠ "" ∧ ∀ c ∈ x.data, c ≠ ' ' ∧ c ≠ '"' :=
        fun x hx => h x (List.mem_cons_of_mem t hx)
      have hdata : t.data ≠ [] := by
        intro hd
        exact ht.1 (by cases t; simp at hd; rw [hd])
      cases ts with
      | nil =>
          show parse_shell_command_aux (joinSpace [t]).data false [] = [t]
          have : (joinSpace [t]).data = t.data ++ [] := by simp [joinSpace]
          rw [this, parse_aux_shift t.data ht.2 [] false []]
          dsimp only [parse_shell_command_aux]
          rw [if_neg (by simpa using hdata)]
          rfl
      | cons t2 ts2 =>
          show parse_shell_command_aux (joinSpace (t :: t2 :: ts2)).data false [] =
            t :: t2 :: ts2
          have hjoin : (joinSpace (t :: t2 :: ts2)).data =
              t.data ++ (' ' :: (joinSpace (t2 :: ts2)).data) := by
            show ((t ++ " ") ++ joinSpace (t2 :: ts2)).data = _
            rw [String.data_append, String.data_append]
            simp
          rw [hjoin, parse_aux_shift t.data ht.2 _ false []]
          dsimp only [parse_shell_command_aux]
          rw [if_neg (by decide : ¬(' ' = '"')), if_pos (by decide : ((' ' = ' ' : Bool) && !false : Bool) = true)]
          rw [if_neg (by simpa using hdata)]
          rw [List.nil_append]
          have hmk : String.mk t.data = t := rfl
          rw [hmk]
          exact congrArg (t :: ·) (ih hts)

-- === Claim theorems ===

/-- Claim C1 (counterexample): in env_mount_fails the mount command
    "mount -t proc none /proc" of boot step 2 exits with code 1, yet
    mount_filesystems returns Ok and only logs the failure, all later boot
    steps run (the browser-launch step is announced), and the process exits
    with code 0 — refuting the claim that a failing mount command in step 2
    aborts the sequence with exit code 1. -/
theorem claim_C1_counterexample :
    world_mount_fails.run "/bin/mount" ["-t", "proc", "none", "/proc"]
      fixed_environment = CmdOutcome.exited (some 1) ∧
    (mount_filesystems world_mount_fails).2 = Except.ok () ∧
    "Command failed with exit code: Some(1)" ∈ (mount_filesystems world_mount_fails).1 ∧
    (run_initialization env_mount_fails 8).2 = some (Except.ok ()) ∧
    "[8/9]: Launching web browser" ∈ (run_initialization env_mount_fails 8).1 ∧
    (main_result env_mount_fails 8).2 = some 0 := by
  refine ⟨rfl, rfl, by decide, rfl, by decide, rfl⟩

/-- Claim C1 (amended): a failing mount command in boot step 2 is NOT
    propagated out of mount_filesystems: for every world — spawn failures
    and non-zero exits included — mount_filesystems returns Ok (failures are
    only logged), so step 2 never aborts the initialization sequence. -/
theorem claim_C1 (w : World) : (mount_filesystems w).2 = Except.ok () :=
  mount_filesystems_snd w

/-- Claim C2: for every world (covering the three cases: spawn of the target
    program fails, the child exits non-zero, the child exits zero) and every
    command string, execute_shell_command returns Ok; failures are reported
    only in the returned log lines. -/
theorem claim_C2 (w : World) (command : String) :
    (execute_shell_command w command).result = Except.ok () :=
  execute_result_ok w command

/-- Claim C3 (implicit): every shell-command-based boot step always returns
    Ok (mount_log_storage either blocks or returns Ok), so the only way
    run_initialization returns an Err — and hence the only way the process
    exits with code 1 — is a fork failure in start_sync_process. -/
theorem claim_C3 (env : Env) (fuel : Nat) :
    (create_symbolic_links env.symlink).2 = Except.ok () ∧
    (mount_filesystems env.world).2 = Except.ok () ∧
    (setup_temporary_filesystems env.world).2 = Except.ok () ∧
    ((mount_log_storage env fuel).2 = none ∨
      (mount_log_storage env fuel).2 = some (Except.ok ())) ∧
    (start_browser env.world).2 = Except.ok () ∧
    (∀ e, (run_initialization env fuel).2 = some (Except.error e) →
      env.fork = ForkResult.failed) ∧
    ((main_result env fuel).2 = some 1 → env.fork = ForkResult.failed) :=
  ⟨create_symbolic_links_snd _, mount_filesystems_snd _,
   setup_temporary_filesystems_snd _, mount_log_storage_result _ _,
   start_browser_snd _,
   fun e h => run_error_fork env fuel e h,
   fun h => main_one_fork env fuel h⟩

/-- Witness for claim C3 at a concrete environment whose fork fails and
    whose initialization therefore returns an Err. -/
theorem claim_C3_witness :
    (run_initialization env_fork_fails 8).2 =
      some (Except.error "Failed to fork sync process") ∧
    env_fork_fails.fork = ForkResult.failed :=
  ⟨rfl, (claim_C3 env_fork_fails 8).2.2.2.2.2.1
          "Failed to fork sync process" rfl⟩

/-- Claim C4: the tokenizer drops double-quote characters (they only toggle
    the inside-quotes flag and never appear in an output token), never emits
    an empty token (consecutive spaces collapse), flushes a non-empty
    pending token at end of input, treats an unterminated quote as normal
    input, and produces the three example results. -/
theorem claim_C4 :
    parse_shell_command "a \"b c\" d" = ["a", "b c", "d"] ∧
    parse_shell_command "" = [] ∧
    parse_shell_command "\"unterminated" = ["unterminated"] ∧
    ∀ (s t : String), t ∈ parse_shell_command s → t ≠ "" ∧ '"' ∉ t.data :=
  ⟨by decide, by decide, by decide,
   fun s t ht => parse_aux_tokens s.data false [] (by simp) t ht⟩

/-- Witness for claim C4's universal part at a concrete token of a concrete
    parse. -/
theorem claim_C4_witness :
    ("b c" ∈ parse_shell_command "a \"b c\" d") ∧
    ("b c" ≠ "" ∧ '"' ∉ ("b c" : String).data) :=
  ⟨by decide, claim_C4.2.2.2 "a \"b c\" d" "b c" (by decide)⟩

/-- Claim C5: for every non-empty tokenized command, a first token not
    beginning with '/' is qualified by prepending the default binary
    directory "/bin" and a '/' separator, a first token already beginning
    with '/' is left unchanged, and the remaining tokens are passed as
    arguments unchanged in either case. -/
theorem claim_C5 (w : World) (command program : String) (arguments : List String)
    (h : parse_shell_command command = program :: arguments) :
    (execute_shell_command w command).spawned =
      some ((if starts_with_slash program then program
             else DEFAULT_BINARY_PATH ++ "/" ++ program), arguments) := by
  unfold execute_shell_command
  rw [h]

/-- Witness for claim C5: "ls" qualifies to "/bin/ls" and the already-rooted
    browser path is left unchanged. -/
theorem claim_C5_witness :
    (parse_shell_command "ls -l" = "ls" :: ["-l"]) ∧
    (execute_shell_command world0 "ls -l").spawned = some ("/bin/ls", ["-l"]) ∧
    (parse_shell_command "/usr/bin/ui/content_shell url" =
      "/usr/bin/ui/content_shell" :: ["url"]) ∧
    (execute_shell_command world0 "/usr/bin/ui/content_shell url").spawned =
      some ("/usr/bin/ui/content_shell", ["url"]) := by
  refine ⟨by decide, ?_, by decide, ?_⟩
  · rw [claim_C5 world0 "ls -l" "ls" ["-l"] (by decide)]
    decide
  · rw [claim_C5 world0 "/usr/bin/ui/content_shell url" "/usr/bin/ui/content_shell"
        ["url"] (by decide)]
    decide

/-- Claim C6: the console loop terminates normally (result Ok, never an
    error) on end-of-input, on a failure to open the console, and on a
    failure to read; a line that is blank after trimming is skipped and the
    loop repeats; the trimmed literals "exit" and "quit" terminate the loop
    after the farewell message; every other non-blank trimmed line is handed
    to execute_shell_command and the loop continues regardless of the
    command's outcome (the continuation does not depend on the world). -/
theorem claim_C6 (w : World) (rest : List ConsoleEvent) (s : String) :
    interactive_shell_loop w (ConsoleEvent.eof :: rest) =
      ([], [], some (Except.ok ())) ∧
    interactive_shell_loop w (ConsoleEvent.openFail :: rest) =
      ([], ["Failed to open console for input"], some (Except.ok ())) ∧
    interactive_shell_loop w (ConsoleEvent.readErr :: rest) =
      ([], ["Failed to read command from console"], some (Except.ok ())) ∧
    (trim_whitespace s = "" →
      interactive_shell_loop w (ConsoleEvent.line s :: rest) =
        interactive_shell_loop w rest) ∧
    ((trim_whitespace s = "exit" ∨ trim_whitespace s = "quit") →
      interactive_shell_loop w (ConsoleEvent.line s :: rest) =
        ([], ["Exiting interactive shell..."], some (Except.ok ()))) ∧
    (trim_whitespace s ≠ "" → trim_whitespace s ≠ "exit" →
      trim_whitespace s ≠ "quit" →
      interactive_shell_loop w (ConsoleEvent.line s :: rest) =
        (trim_whitespace s :: (interactive_shell_loop w rest).1,
         (execute_shell_command w (trim_whitespace s)).logs ++
           (interactive_shell_loop w rest).2.1,
         (interactive_shell_loop w rest).2.2)) ∧
    (∀ events e, (interactive_shell_loop w events).2.2 ≠
      some (Except.error e)) := by
  refine ⟨rfl, rfl, rfl, ?_, ?_, ?_, ?_⟩
  · intro h
    have he : (trim_whitespace s).isEmpty = true := by rw [h]; decide
    simp [interactive_shell_loop, he]
  · intro h
    have hne : (trim_whitespace s).isEmpty = false := by
      rcases h with h | h <;> rw [h] <;> decide
    have hexit : (trim_whitespace s = "exit" || trim_whitespace s = "quit") = true := by
      rcases h with h | h <;> simp [h]
    simp [interactive_shell_loop, hne, hexit]
  · intro h1 h2 h3
    have hne : (trim_whitespace s).isEmpty = false := by
      rw [Bool.eq_false_iff]
      intro hc
      exact h1 ((String.isEmpty_iff _).mp hc)
    simp [interactive_shell_loop, hne, h2, h3]
  · intro events e
    rcases interactive_shell_loop_result w events with h | h <;> simp [h]

/-- Witness for claim C6: a blank line is skipped before a terminating
    end-of-input, and a padded " exit " line terminates the loop with the
    farewell message. -/
theorem claim_C6_witness :
    (trim_whitespace "   " = "") ∧
    (trim_whitespace " exit " = "exit" ∨ trim_whitespace " exit " = "quit") ∧
    interactive_shell_loop world0 [ConsoleEvent.line "   ", ConsoleEvent.eof] =
      ([], [], some (Except.ok ())) ∧
    interactive_shell_loop world0 [ConsoleEvent.line " exit "] =
      ([], ["Exiting interactive shell..."], some (Except.ok ())) := by
  refine ⟨by decide, Or.inl (by decide), ?_, ?_⟩
  · rw [(claim_C6 world0 [ConsoleEvent.eof] "   ").2.2.2.1 (by decide)]
    exact (claim_C6 world0 [] "x").1
  · exact (claim_C6 world0 [] " exit ").2.2.2.2.1 (Or.inl (by decide))

/-- Claim C7: when fork returns a child pid the parent branch of
    start_sync_process logs that the daemon started and returns Ok
    immediately; when fork fails it returns an Err, and that Err is surfaced
    out of run_initialization as the result of the whole sequence. -/
theorem claim_C7 (env : Env) (fuel : Nat) (p : Nat) :
    start_sync_process (ForkResult.parent p) =
      (["Started background sync process"], some (Except.ok ())) ∧
    start_sync_process ForkResult.failed =
      (["Failed to fork sync process"],
       some (Except.error "Failed to fork sync process")) ∧
    (env.fork = ForkResult.failed →
      (run_initialization env fuel).2 =
        some (Except.error "Failed to fork sync process")) :=
  ⟨rfl, rfl, fun hf => run_failed env fuel hf⟩

/-- Witness for claim C7 at a concrete environment whose fork fails. -/
theorem claim_C7_witness :
    env_fork_fails.fork = ForkResult.failed ∧
    (run_initialization env_fork_fails 8).2 =
      some (Except.error "Failed to fork sync process") :=
  ⟨rfl, (claim_C7 env_fork_fails 8 0).2.2 rfl⟩

/-- Claim C8: the browser command tokenizes to the fixed executable path
    (left unqualified because it begins with '/'), the five fixed flags in
    order, and the target URL as the final argument; start_browser returns
    Ok for every world, and a spawn failure or non-zero exit is logged. -/
theorem claim_C8 (w : World) :
    parse_shell_command browser_command =
      BROWSER_EXECUTABLE_PATH :: (BROWSER_ARGUMENTS ++ [BROWSER_DEFAULT_URL]) ∧
    (execute_shell_command w browser_command).spawned =
      some (BROWSER_EXECUTABLE_PATH, BROWSER_ARGUMENTS ++ [BROWSER_DEFAULT_URL]) ∧
    (start_browser w).2 = Except.ok () ∧
    (∀ msg, w.run BROWSER_EXECUTABLE_PATH (BROWSER_ARGUMENTS ++ [BROWSER_DEFAULT_URL])
        fixed_environment = CmdOutcome.spawnError msg →
      ("Failed to execute command: " ++ msg) ∈ (start_browser w).1) ∧
    (∀ code, w.run BROWSER_EXECUTABLE_PATH (BROWSER_ARGUMENTS ++ [BROWSER_DEFAULT_URL])
        fixed_environment = CmdOutcome.exited code → code ≠ some 0 →
      ("Command failed with exit code: " ++ optionCodeRepr code) ∈ (start_browser w).1) := by
  have hp : parse_shell_command browser_command =
      BROWSER_EXECUTABLE_PATH :: (BROWSER_ARGUMENTS ++ [BROWSER_DEFAULT_URL]) := by
    decide
  refine ⟨hp, ?_, start_browser_snd w, ?_, ?_⟩
  · unfold execute_shell_command
    rw [hp]
    dsimp only
    rw [if_pos (by decide : starts_with_slash BROWSER_EXECUTABLE_PATH = true)]
  · intro msg hrun
    unfold start_browser execute_shell_command
    rw [hp]
    dsimp only
    rw [if_pos (by decide : starts_with_slash BROWSER_EXECUTABLE_PATH = true), hrun]
    simp [report_outcome]
  · intro code hrun hcode
    unfold start_browser execute_shell_command
    rw [hp]
    dsimp only
    rw [if_pos (by decide : starts_with_slash BROWSER_EXECUTABLE_PATH = true), hrun]
    simp [report_outcome, hcode]

/-- Witness for claim C8 at a world whose spawns all fail: the browser spawn
    failure is logged and start_browser still returns Ok. -/
theorem claim_C8_witness :
    (world_spawn_fails.run BROWSER_EXECUTABLE_PATH
        (BROWSER_ARGUMENTS ++ [BROWSER_DEFAULT_URL]) fixed_environment =
      CmdOutcome.spawnError "No such file or directory") ∧
    ("Failed to execute command: No such file or directory" ∈
      (start_browser world_spawn_fails).1) ∧
    (start_browser world_spawn_fails).2 = Except.ok () := by
  refine ⟨rfl, ?_, (claim_C8 world_spawn_fails).2.2.1⟩
  exact (claim_C8 world_spawn_fails).2.2.2.1 "No such file or directory" rfl

/-- Claim C9: in debug mode (DEBUG_MODE is true in this build), step 6 polls
    for the log storage device with the fixed 2-second delay and unbounded
    retries, logging one line per unready poll; when the device never
    appears, mount_log_storage never reaches its mount commands and never
    returns, run_initialization never terminates, and the step-7 (log-phase
    redirection), step-8 (browser launch) and step-9 announcements never
    appear in the boot trace, for every amount of fuel. -/
theorem claim_C9 (env : Env) (fuel : Nat) (p : Nat)
    (hf : env.fork = ForkResult.parent p)
    (hd : ∀ n, env.deviceExists n = false) :
    RETRY_DELAY_SECONDS = 2 ∧
    mount_log_storage env fuel =
      ("Waiting for log storage device to become available..." ::
        List.replicate fuel "Log storage device not ready, waiting...", none) ∧
    (run_initialization env fuel).2 = none ∧
    "[7/9]: Setting up logging" ∉ (run_initialization env fuel).1 ∧
    "[8/9]: Launching web browser" ∉ (run_initialization env fuel).1 ∧
    "[9/9]: Starting interactive shell" ∉ (run_initialization env fuel).1 := by
  refine ⟨rfl, mount_log_storage_never env fuel hd,
    run_device_never_snd env fuel p hf hd, ?_, ?_, ?_⟩ <;>
  · intro hmem
    have h := run_device_never_step_lines env fuel p hf hd _ hmem (by decide)
    exact absurd h (by decide)

/-- Witness for claim C9 at a concrete environment whose device never
    appears. -/
theorem claim_C9_witness :
    env_device_never.fork = ForkResult.parent 2 ∧
    (∀ n, env_device_never.deviceExists n = false) ∧
    (run_initialization env_device_never 2).2 = none ∧
    "[7/9]: Setting up logging" ∉ (run_initialization env_device_never 2).1 :=
  ⟨rfl, fun _ => rfl,
   (claim_C9 env_device_never 2 2 rfl (fun _ => rfl)).2.2.1,
   (claim_C9 env_device_never 2 2 rfl (fun _ => rfl)).2.2.2.1⟩

/-- Claim C10 (implicit): for every list of tokens in which each token is
    non-empty and contains neither a space nor a double quote,
    parse_shell_command applied to the tokens joined by single spaces
    returns exactly that list (and the tokenizer is a pure function of its
    input string). -/
theorem claim_C10 (ts : List String)
    (h : ∀ t ∈ ts, t ≠ "" ∧ ∀ c ∈ t.data, c ≠ ' ' ∧ c ≠ '"') :
    parse_shell_command (joinSpace ts) = ts :=
  parse_roundtrip ts h

/-- Witness for claim C10 at a concrete token list. -/
theorem claim_C10_witness :
    (∀ t ∈ ["a", "bc"], t ≠ "" ∧ ∀ c ∈ t.data, c ≠ ' ' ∧ c ≠ '"') ∧
    parse_shell_command (joinSpace ["a", "bc"]) = ["a", "bc"] :=
  ⟨by decide, claim_C10 ["a", "bc"] (by decide)⟩
